import Mathlib

/-!
Verification of the `@web-widget/web-server` routing, middleware-composition
and rendering pipeline.  The definitions below are a shallow embedding of the
TypeScript sources:

* `dev.ts` (`sortRoutes`, `pathToPathname`) — route priority sorting and the
  filesystem-path-to-pattern translator;
* `src/server/context.ts` — the top-level handler (trailing-slash redirect),
  middleware selection (`selectMiddlewares`), the continuation chain
  (`#composeMiddlewares`), the error handler, and route-table construction
  (`ServerContext.fromManifest`);
* `src/server/render.ts` (`internalRender`) — the render pipeline and the
  per-render Content-Security-Policy object.

JavaScript strings are modelled as Lean `String`s; the JS string primitives
used by the sources (`split`, `startsWith`, `endsWith`, `slice`, `join`) are
re-implemented on the underlying character list so that every definition
evaluates inside the kernel.  `Array.prototype.sort` (a stable sort per
ECMAScript 2019) is modelled as a stable top-down merge sort.  Promises and
exceptions are modelled with `Except`: a thrown/rejected error is `.error`,
a fulfilled response is `.ok`.
-/

namespace WebServer

/-- Models JS `String.prototype.startsWith`, computed on the character list. -/
def strStartsWith (s pre : String) : Bool :=
  pre.toList.isPrefixOf s.toList

/-- Models JS `String.prototype.endsWith`, computed on the character list. -/
def strEndsWith (s suf : String) : Bool :=
  suf.toList.isSuffixOf s.toList

/-- Models JS `s.slice(n)`: drop the first `n` characters. -/
def strDrop (s : String) (n : Nat) : String :=
  String.mk (s.toList.drop n)

/-- Models JS `s.slice(i, s.length - 1)` applied after `strDrop s i`: drop the
last character. -/
def strDropLast (s : String) : String :=
  String.mk s.toList.dropLast

/-- Models JS `s.split("/")` (`"".split("/")` is `[""]`, like `splitOn`). -/
def splitSlash (s : String) : List String :=
  (s.toList.splitOn '/').map (fun cs => String.mk cs)

/-- Models JS `parts.join("/")`. -/
def joinSlash : List String → String
  | [] => ""
  | [s] => s
  | s :: t :: rest => s ++ "/" ++ joinSlash (t :: rest)

/-! ### Path Translator (`pathToPathname`, dev.ts lines 122–139) -/

/-- The per-segment mapping inside `pathToPathname`: `[...name]` becomes
`:name*`, `[name]` becomes `:name`, anything else is copied literally. -/
def segmentToPattern (part : String) : String :=
  if strStartsWith part "[..." && strEndsWith part "]" then
    ":" ++ strDropLast (strDrop part 4) ++ "*"
  else if strStartsWith part "[" && strEndsWith part "]" then
    ":" ++ strDropLast (strDrop part 1)
  else part

/-- `pathToPathname` from dev.ts: split on `/`, pop a trailing `index`
segment, map each segment through `segmentToPattern`, join and prefix `/`. -/
def pathToPathname (path : String) : String :=
  let parts := splitSlash path
  let parts := if parts.getLast? = some "index" then parts.dropLast else parts
  "/" ++ joinSlash (parts.map segmentToPattern)

/-! ### Route Priority Sorter (`sortRoutes`, dev.ts lines 103–119) -/

/-- Priority of one path segment in the `sortRoutes` comparator:
0 = wildcard parameter (`:name*`), 1 = named parameter (`:name`),
2 = static literal. -/
def segPriority (p : String) : Int :=
  if strStartsWith p ":" then (if strEndsWith p "*" then 0 else 1) else 2

/-- The segment walk of the `sortRoutes` comparator.  A missing segment
(`undefined` in JS) makes the shorter entry sort first; equal segments
continue; differing segments return the clamped priority difference
`Math.max(Math.min(priorityB - priorityA, 1), -1)` — note that two distinct
static segments therefore compare as a tie (0). -/
def cmpParts : List String → List String → Int
  | [], [] => 0
  | [], _ :: _ => -1
  | _ :: _, [] => 1
  | a :: as, b :: bs =>
    if a = b then cmpParts as bs
    else max (min (segPriority b - segPriority a) 1) (-1)

/-- The `sortRoutes` comparator on whole pathnames. -/
def routeCmp (a b : String) : Int :=
  cmpParts (splitSlash a) (splitSlash b)

/-- Stable merge, taking from the left list on ties (`cmp x y ≤ 0`).  The
fuel argument only forces structural termination; `mergeBy` supplies enough
fuel for it never to run out. -/
def mergeByF (cmp : α → α → Int) : Nat → List α → List α → List α
  | 0, xs, ys => xs ++ ys
  | _ + 1, [], ys => ys
  | _ + 1, xs, [] => xs
  | f + 1, x :: xs, y :: ys =>
    if cmp x y ≤ 0 then x :: mergeByF cmp f xs (y :: ys)
    else y :: mergeByF cmp f (x :: xs) ys

/-- Stable merge of two lists under a three-way comparator. -/
def mergeBy (cmp : α → α → Int) (xs ys : List α) : List α :=
  mergeByF cmp (xs.length + ys.length) xs ys

/-- Stable top-down merge sort (fuelled for structural termination); models
the stable sort that ECMAScript 2019 `Array.prototype.sort` performs.  For a
consistent comparator every stable sort produces this output; for an
inconsistent comparator ECMAScript leaves the order implementation-defined
and this is one conforming outcome. -/
def mergeSortByF (cmp : α → α → Int) : Nat → List α → List α
  | 0, l => l
  | _ + 1, [] => []
  | _ + 1, [a] => [a]
  | f + 1, a :: b :: rest =>
    let l := a :: b :: rest
    mergeBy cmp (mergeSortByF cmp f (l.take (l.length / 2)))
      (mergeSortByF cmp f (l.drop (l.length / 2)))

/-- Stable merge sort of a whole list. -/
def mergeSortBy (cmp : α → α → Int) (l : List α) : List α :=
  mergeSortByF cmp l.length l

/-- `sortRoutes` from dev.ts: sort the pathnames by `routeCmp` with the
engine's stable sort. -/
def sortRoutes (routes : List String) : List String :=
  mergeSortBy routeCmp routes

/-! ### HTTP responses and the top-level handler (context.ts lines 158–182) -/

/-- The slice of the WHATWG `Response` the server observes: body (possibly
`null`), header list, status and status text.  `new Response(null, init)`
has `body = none` and, when `init` omits them, `statusText = ""`. -/
structure Response (β : Type) where
  body : Option β
  headers : List (String × String)
  status : Nat
  statusText : String
deriving DecidableEq

/-- Modelled from the spec: `Status.TemporaryRedirect` comes from
`http_status.ts`, which is not under `src/`; the spec fixes the
trailing-slash redirect status to HTTP 307. -/
def temporaryRedirect : Nat := 307

/-- The parsed request URL as the top-level handler uses it:
`url.pathname` and `url.search` of `new URL(req.url)`. -/
structure URLParts where
  pathname : String
  search : String
deriving DecidableEq

/-- Models `url.pathname.replace(/\/+$/, "")`: remove every trailing slash. -/
def stripTrailingSlashes (s : String) : String :=
  String.mk ((s.toList.reverse.dropWhile (fun c => c = '/')).reverse)

/-- The top-level request handler returned by `ServerContext.handler`
(context.ts lines 165–181): if the path is longer than one character and
ends with a slash, answer immediately with a 307 redirect to the
slash-stripped path plus the original query string; otherwise delegate to
the middleware/route dispatch (`withMiddlewares`), abstracted here as
`dispatch`. -/
def topHandler (dispatch : URLParts → Response β) (u : URLParts) : Response β :=
  if 1 < u.pathname.length ∧ strEndsWith u.pathname "/" = true then
    { body := none
      headers := [("location", stripTrailingSlashes u.pathname ++ u.search)]
      status := temporaryRedirect
      statusText := "" }
  else dispatch u

/-! ### Middleware selection and the continuation chain
(context.ts lines 188–236 and 403–415) -/

/-- Behaviour of one middleware handler thunk.  A handler either returns a
response without calling `next()`, throws, or calls `next()` exactly once
and post-processes the settled result of the rest of the chain (it may
return it unchanged — `callNext id` — transform it, or swallow an error). -/
inductive MwAction (E R : Type) where
  | respond : R → MwAction E R
  | throwErr : E → MwAction E R
  | callNext : (Except E R → Except E R) → MwAction E R

/-- `Middleware.handler` from types.ts: a single handler function or an
ordered list of handler functions. -/
inductive MwHandlerField (E R : Type) where
  | single : MwAction E R → MwHandlerField E R
  | list : List (MwAction E R) → MwHandlerField E R

/-- A `MiddlewareRoute` table entry: pathname, compiled pattern matcher
(`URLPattern` abstracted to a predicate on the request URL) and handler. -/
structure MiddlewareRoute (U E R : Type) where
  pathname : String
  compiledPattern : U → Bool
  handler : MwHandlerField E R

/-- The `Middleware` objects (`{ handler }`) that `selectMiddlewares`
pushes. -/
structure Middleware (E R : Type) where
  handler : MwHandlerField E R

/-- `selectMiddlewares` from context.ts lines 403–415: walk the table in
order and keep `{ handler }` for every entry whose compiled pattern matches
the request URL. -/
def selectMiddlewares (url : U) :
    List (MiddlewareRoute U E R) → List (Middleware E R)
  | [] => []
  | m :: rest =>
    if m.compiledPattern url then ⟨m.handler⟩ :: selectMiddlewares url rest
    else selectMiddlewares url rest

/-- The thunk-building loop of `#composeMiddlewares` (context.ts lines
213–222): an array handler is flattened into one thunk per function,
preserving order. -/
def flattenHandlers : List (Middleware E R) → List (MwAction E R)
  | [] => []
  | m :: rest =>
    (match m.handler with
      | .single h => [h]
      | .list hs => hs) ++ flattenHandlers rest

/-- Execution of the shift-queue continuation chain: `next()` pops and runs
the next thunk; index `i` names the thunk being run.  The terminal thunk
(the route/fallback handler pushed last, whose settled result is `term`)
runs when the middleware thunks are exhausted.  Returns the settled result
of the outermost thunk together with the trace of executed thunk indices. -/
def runChain : List (MwAction E R) → Except E R → Nat → Except E R × List Nat
  | [], term, i => (term, [i])
  | .respond r :: _, _, i => (.ok r, [i])
  | .throwErr e :: _, _, i => (.error e, [i])
  | .callNext k :: rest, term, i =>
    let res := runChain rest term (i + 1)
    (k res.fst, i :: res.snd)

/-- The error-page handler context: `errorHandler` (context.ts lines
353–371) re-dispatches to `#error.handler` with the caught error attached
as `ctx.error`. -/
structure ErrHandlerCtx (E : Type) where
  error : E

/-- `errorHandler` from `#handlers` (context.ts lines 353–371): attach the
error to the context and invoke the error page's handler. -/
def errorHandler (errorPage : ErrHandlerCtx E → R) (e : E) : R :=
  errorPage ⟨e⟩

/-- `#composeMiddlewares` (context.ts lines 188–236): select the matching
middlewares, flatten their handlers into thunks, start the chain with one
`next()` call, and catch any rejection at the top, redirecting it to the
error handler.  `inner` is the settled result of the terminal route/fallback
handler. -/
def composeMiddlewares (middlewares : List (MiddlewareRoute U E R))
    (errorPage : ErrHandlerCtx E → R) (url : U) (inner : Except E R) : R :=
  let mws := selectMiddlewares url middlewares
  let thunks := flattenHandlers mws
  match (runChain thunks inner 0).fst with
  | .ok r => r
  | .error e => errorHandler errorPage e

/-! ### Route-table construction (`ServerContext.fromManifest`,
context.ts lines 56–152) -/

/-- The `GET`/`HEAD` slots of a method-map handler.  Other HTTP methods are
carried unchanged by `fromManifest` and play no part in the claims. -/
structure MethodHandlers (Req β : Type) where
  GET : Option (Req → Response β)
  HEAD : Option (Req → Response β)

/-- `RouteModule.handler`: a single function or a method map. -/
inductive HandlerDef (Req β : Type) where
  | single : (Req → Response β) → HandlerDef Req β
  | byMethod : MethodHandlers Req β → HandlerDef Req β

/-- `RouteConfig` from types.ts: an optional route override and CSP flag. -/
structure RouteConfig where
  routeOverride : Option String
  csp : Option Bool

/-- The slice of a `RouteModule` that `fromManifest` consumes: whether a
`default` component export is present (its JS truthiness), the optional
handler, and the optional config. -/
structure RouteModuleModel (Req β : Type) where
  component : Bool
  handler : Option (HandlerDef Req β)
  config : Option RouteConfig

/-- One entry of `manifest.routes`. -/
structure ManifestRouteEntry (Req β : Type) where
  pathname : String
  name : String
  module : RouteModuleModel Req β

/-- The built `Route` record pushed by `fromManifest`. -/
structure RouteTableRoute (Req β : Type) where
  pathname : String
  name : String
  component : Bool
  handler : HandlerDef Req β
  csp : Bool

/-- The synthesized `HEAD` handler (context.ts lines 81–89): invoke `GET`,
then answer with `new Response(null, ...)` carrying the `GET` response's
headers, status and status text. -/
def synthHeadHandler (g : Req → Response β) : Req → Response β := fun req =>
  let resp := g req
  { body := none
    headers := resp.headers
    status := resp.status
    statusText := resp.statusText }

/-- The body stream that `resp.body?.cancel()` releases inside the
synthesized `HEAD` handler: exactly the body of the `GET` response (nothing
when `GET` answered with a null body). -/
def synthHeadCancels (g : Req → Response β) (req : Req) : Option β :=
  (g req).body

/-- The handler-normalisation steps of the `fromManifest` route loop
(context.ts lines 68–90): `handler ??= {}`; default a missing `GET` to the
render-invoking handler (`defaultGet`) when a component is declared; then
synthesize `HEAD` from `GET` when `GET` exists and `HEAD` does not. -/
def buildHandler (defaultGet : Req → Response β) (component : Bool)
    (h : Option (HandlerDef Req β)) : HandlerDef Req β :=
  let h := h.getD (.byMethod ⟨none, none⟩)
  match h with
  | .single f => .single f
  | .byMethod m =>
    let m := if component ∧ m.GET.isNone then { m with GET := some defaultGet } else m
    let m :=
      match m.GET, m.HEAD with
      | some g, none => { m with HEAD := some (synthHeadHandler g) }
      | _, _ => m
    .byMethod m

/-- The pathname choice of the route loop (context.ts line 92):
`config?.routeOverride ? String(config.routeOverride) : pathname` — the
override wins only when it is truthy (present and non-empty). -/
def resolveRoutePathname (config : Option RouteConfig) (pathname : String) : String :=
  match config with
  | none => pathname
  | some cfg =>
    match cfg.routeOverride with
    | none => pathname
    | some s => if s = "" then pathname else s

/-- `Boolean(config?.csp ?? false)` (context.ts line 97). -/
def resolveCsp (config : Option RouteConfig) : Bool :=
  match config with
  | none => false
  | some cfg => cfg.csp.getD false

/-- The whole per-route body of the `fromManifest` loop (context.ts lines
66–99). -/
def buildRoute (defaultGet : Req → Response β) (entry : ManifestRouteEntry Req β) :
    RouteTableRoute Req β :=
  { pathname := resolveRoutePathname entry.module.config entry.pathname
    name := entry.name
    component := entry.module.component
    handler := buildHandler defaultGet entry.module.component entry.module.handler
    csp := resolveCsp entry.module.config }

/-! ### Render pipeline (`internalRender`, render.ts lines 84–165) -/

/-- Modelled from the spec: the `NONE` source constant of the missing
`csp.ts`; the spec's default directive set is `default-src 'none'`. -/
def NONE : String := "'none'"

/-- Modelled from the spec: the `UNSAFE_INLINE` source constant of the
missing `csp.ts`; the spec's default directive set includes
`style-src 'unsafe-inline'`. -/
def UNSAFE_INLINE : String := "'unsafe-inline'"

/-- Modelled from the spec: `nonce(n)` of the missing `csp.ts`, the
per-script nonce source appended to `script-src`; written in the standard
CSP form, which is injective in the raw nonce. -/
def cspNonce (n : String) : String := "'nonce-" ++ n ++ "'"

/-- The CSP directives the render pipeline touches. -/
structure CspDirectives where
  defaultSrc : Option (List String)
  styleSrc : Option (List String)
  scriptSrc : Option (List String)
  connectSrc : Option (List String)
deriving DecidableEq

/-- `ContentSecurityPolicy` from csp.ts as used by `internalRender`. -/
structure ContentSecurityPolicy where
  directives : CspDirectives
  reportOnly : Bool
deriving DecidableEq

/-- `defaultCsp()` from render.ts lines 84–89. -/
def defaultCsp : ContentSecurityPolicy :=
  { directives :=
      { defaultSrc := some [NONE]
        styleSrc := some [UNSAFE_INLINE]
        scriptSrc := none
        connectSrc := none }
    reportOnly := false }

/-- The slice of the matched page `internalRender` reads: its `csp` flag
and the value its own `render` function produces for the outlet.  A page
render returning `undefined` is `none`; a string result is `some`; JS
treats both `none` and `some ""` as falsy in the `if (!outlet)` check. -/
structure RenderPageModel where
  csp : Bool
  renderResult : Option String

/-- The template output `internalRender` assembles: the outlet and the
`(url, nonce)` pairs of the injected module scripts. -/
structure TemplateOutput where
  outlet : String
  moduleScripts : List (String × String)
deriving DecidableEq

/-- The `for (const url of opts.imports)` loop of render.ts lines 139–148:
for each injected module URL generate the next nonce (`nonces` is the
stream of dash-stripped `crypto.randomUUID()` values, indexed by call
number `i`), append it as a nonce source to `script-src` when a CSP
is active, and record the `(url, nonce)` module-script pair. -/
def injectScripts (nonces : Nat → String) :
    List String → Nat → Option ContentSecurityPolicy →
    List (String × String) × Option ContentSecurityPolicy
  | [], _, csp => ([], csp)
  | url :: rest, i, csp =>
    let randomNonce := nonces i
    let csp :=
      match csp with
      | some c =>
        some { c with directives :=
          { c.directives with
            scriptSrc := some ((c.directives.scriptSrc.getD []) ++ [cspNonce randomNonce]) } }
      | none => none
    let res := injectScripts nonces rest (i + 1) csp
    ((url, randomNonce) :: res.1, res.2)

/-- `internalRender` (render.ts lines 95–165).  `hookCalls` is the number
of times the externally supplied render hook invoked the inner render
function (each call stores the page render's result in `outlet`); the hook
itself is otherwise opaque.  A CSP object exists exactly when the page
declares `csp: true`; it is defensively re-initialised to the default
directives before the hook runs; after the hook, a falsy outlet (`null` or
`""`) is a thrown error, otherwise the module scripts are injected and the
templated output returned together with the CSP. -/
def internalRender (route : RenderPageModel) (imports : List String)
    (hookCalls : Nat) (nonces : Nat → String) :
    Except String (TemplateOutput × Option ContentSecurityPolicy) :=
  let csp : Option ContentSecurityPolicy :=
    if route.csp then some defaultCsp else none
  let csp := csp.map (fun _ => defaultCsp)
  let outlet : Option String := if hookCalls = 0 then none else route.renderResult
  match outlet with
  | none => .error "The 'render' function was not called by route's render hook."
  | some o =>
    if o = "" then .error "The 'render' function was not called by route's render hook."
    else
      let res := injectScripts nonces imports 0 csp
      .ok ({ outlet := o, moduleScripts := res.1 }, res.2)

/-! ## Theorems -/

/-! ### Helper lemmas -/

theorem strStartsWith_not_bracket {part : String} (h : strStartsWith part "[" = false) :
    strStartsWith part "[..." = false := by
  simp only [strStartsWith] at h ⊢
  cases hl : part.toList with
  | nil => simp [List.isPrefixOf]
  | cons c rest =>
    rw [hl] at h
    simp [List.isPrefixOf] at h ⊢
    intro hc
    exact absurd hc h

theorem cmpParts_append_left (pre as bs : List String) :
    cmpParts (pre ++ as) (pre ++ bs) = cmpParts as bs := by
  induction pre with
  | nil => rfl
  | cons a t ih => simp [cmpParts, ih]

theorem segPriority_static {s : String} (hs : strStartsWith s ":" = false) :
    segPriority s = 2 := by
  simp [segPriority, hs]

theorem segPriority_param {p : String} (hp : strStartsWith p ":" = true) :
    segPriority p = 0 ∨ segPriority p = 1 := by
  unfold segPriority
  rw [hp]
  cases strEndsWith p "*" <;> simp

theorem cmpParts_static_param {s p : String} (r1 r2 : List String)
    (hs : strStartsWith s ":" = false) (hp : strStartsWith p ":" = true) :
    cmpParts (s :: r1) (p :: r2) = -1 := by
  have hne : s ≠ p := by
    intro h
    rw [h, hp] at hs
    exact Bool.noConfusion hs
  rw [cmpParts, if_neg hne, segPriority_static hs]
  rcases segPriority_param hp with h | h <;> rw [h] <;> decide

/-! ### C1 — trailing-slash redirect in the top-level handler -/

/-- C1: for every request whose URL path has length > 1 and ends with a
trailing slash, the top-level handler responds with an HTTP 307 redirect
whose `location` header is the slash-stripped path concatenated with the
original query string; the result does not depend on the middleware/route
dispatch, which therefore never runs for such a request. -/
theorem trailing_slash_redirect {β : Type} (dispatch dispatch2 : URLParts → Response β)
    (u : URLParts) (h1 : 1 < u.pathname.length) (h2 : strEndsWith u.pathname "/" = true) :
    topHandler dispatch u =
      { body := none
        headers := [("location", stripTrailingSlashes u.pathname ++ u.search)]
        status := 307
        statusText := "" } ∧
    topHandler dispatch u = topHandler dispatch2 u := by
  have hc : 1 < u.pathname.length ∧ strEndsWith u.pathname "/" = true := ⟨h1, h2⟩
  constructor
  · rw [topHandler, if_pos hc]
    rfl
  · rw [topHandler, if_pos hc, topHandler, if_pos hc]

/-- Witness for C1 at the request `/foo/?q=1`. -/
theorem trailing_slash_redirect_witness :
    (1 < ("/foo/" : String).length ∧ strEndsWith "/foo/" "/" = true) ∧
    topHandler
        (fun _ => ({ body := some "page", headers := [], status := 200,
                     statusText := "OK" } : Response String))
        ⟨"/foo/", "?q=1"⟩ =
      { body := none, headers := [("location", "/foo?q=1")], status := 307,
        statusText := "" } := by
  refine ⟨by decide, ?_⟩
  have h := (trailing_slash_redirect
    (fun _ => ({ body := some "page", headers := [], status := 200,
                 statusText := "OK" } : Response String))
    (fun _ => ({ body := some "page", headers := [], status := 200,
                 statusText := "OK" } : Response String))
    ⟨"/foo/", "?q=1"⟩ (by decide) (by decide)).1
  rw [h]
  decide

/-! ### C4 — route priority sort -/

/-- C4 counterexample: the comparator ranks the static entry `/p/s` strictly
before the parameter entry `/p/:x` (they agree on the segments before depth
2), yet the sorted list keeps `/p/s` after `/p/:x` because the unrelated
entry `/q` ties with both; and sorting a second time can change the list
again.  Distinct static segments at equal depth compare as a tie, so ties
are not transitive and the comparator is not a consistent ECMAScript
comparator. -/
theorem sortRoutes_counterexample :
    sortRoutes ["/p/:x", "/q", "/p/s"] = ["/p/:x", "/q", "/p/s"] ∧
    routeCmp "/p/s" "/p/:x" = -1 ∧
    sortRoutes (sortRoutes ["/p/:x", "/:w", "/q", "/p/s"]) ≠
      sortRoutes ["/p/:x", "/:w", "/q", "/p/s"] := by
  decide

/-- C4 (amended): the comparator orders an entry with a static segment at
depth d before an entry with a parameter segment at depth d whenever the
two agree on all earlier segments, regardless of the segments that follow;
consequently sorting such a two-entry list puts the static entry first and
is idempotent.  (For longer lists the intransitive ties defeat both the
global static-before-parameter ordering and idempotence, see the
counterexample.) -/
theorem route_sort_static_priority (a b : String) (pre r1 r2 : List String)
    (s p : String)
    (ha : splitSlash a = pre ++ s :: r1) (hb : splitSlash b = pre ++ p :: r2)
    (hs : strStartsWith s ":" = false) (hp : strStartsWith p ":" = true) :
    routeCmp a b = -1 ∧ sortRoutes [a, b] = [a, b] ∧
    sortRoutes (sortRoutes [a, b]) = sortRoutes [a, b] := by
  have hcmp : routeCmp a b = -1 := by
    rw [routeCmp, ha, hb, cmpParts_append_left]
    exact cmpParts_static_param r1 r2 hs hp
  have hsort : sortRoutes [a, b] = [a, b] := by
    simp [sortRoutes, mergeSortBy, mergeSortByF, mergeBy, mergeByF, hcmp]
  refine ⟨hcmp, hsort, ?_⟩
  rw [hsort]
  exact hsort

/-- Witness for C4 (amended) at the pair `/x/s`, `/x/:id/y`. -/
theorem route_sort_static_priority_witness :
    (splitSlash "/x/s" = ["", "x"] ++ "s" :: [] ∧
     splitSlash "/x/:id/y" = ["", "x"] ++ ":id" :: ["y"] ∧
     strStartsWith "s" ":" = false ∧ strStartsWith ":id" ":" = true) ∧
    (routeCmp "/x/s" "/x/:id/y" = -1 ∧
     sortRoutes ["/x/s", "/x/:id/y"] = ["/x/s", "/x/:id/y"] ∧
     sortRoutes (sortRoutes ["/x/s", "/x/:id/y"]) = sortRoutes ["/x/s", "/x/:id/y"]) :=
  ⟨by refine ⟨by decide, by decide, by decide, by decide⟩,
   route_sort_static_priority "/x/s" "/x/:id/y" ["", "x"] [] ["y"] "s" ":id"
     (by decide) (by decide) (by decide) (by decide)⟩

/-! ### C5 — path translator -/

/-- C5: `pathToPathname` drops a trailing `index` segment entirely, turns a
segment `[...name]` into `:name*`, a segment `[name]` (not of catch-all
form) into `:name`, copies any other segment literally, and prefixes the
result with `/`; in particular `pathToPathname "blog/[id]/index"` is
`"/blog/:id"` and `pathToPathname "[...slug]"` is `"/:slug*"`. -/
theorem pathToPathname_rules (name part path : String)
    (hname : strStartsWith (name ++ "]") "..." = false)
    (hpart : strStartsWith part "[" = false)
    (hidx : (splitSlash path).getLast? = some "index") :
    pathToPathname "blog/[id]/index" = "/blog/:id" ∧
    pathToPathname "[...slug]" = "/:slug*" ∧
    segmentToPattern ("[..." ++ name ++ "]") = ":" ++ name ++ "*" ∧
    segmentToPattern ("[" ++ name ++ "]") = ":" ++ name ∧
    segmentToPattern part = part ∧
    pathToPathname path =
      "/" ++ joinSlash (((splitSlash path).dropLast).map segmentToPattern) := by
  refine ⟨by decide, by decide, ?_, ?_, ?_, ?_⟩
  · have h1 : strStartsWith ("[..." ++ name ++ "]") "[..." = true := by
      simp [strStartsWith, List.isPrefixOf]
    have h2 : strEndsWith ("[..." ++ name ++ "]") "]" = true := by
      simp [strEndsWith, List.isSuffixOf, List.isPrefixOf]
    rw [segmentToPattern, h1, h2]
    simp [strDrop, strDropLast]
  · have h1 : strStartsWith ("[" ++ name ++ "]") "[..." = false := by
      simp only [strStartsWith] at hname ⊢
      have hl : ("[" ++ name ++ "]").toList = '[' :: (name.toList ++ [']']) := rfl
      rw [hl]
      simp [List.isPrefixOf]
      simpa using hname
    have h2 : strStartsWith ("[" ++ name ++ "]") "[" = true := by
      simp [strStartsWith, List.isPrefixOf]
    have h3 : strEndsWith ("[" ++ name ++ "]") "]" = true := by
      simp [strEndsWith, List.isSuffixOf, List.isPrefixOf]
    rw [segmentToPattern, h1, h2, h3]
    simp [strDrop, strDropLast]
  · have h1 : strStartsWith part "[..." = false := strStartsWith_not_bracket hpart
    rw [segmentToPattern, h1, hpart]
    simp
  · rw [pathToPathname]
    simp only [hidx]
    simp

/-- Witness for C5 at `name := "id"`, `part := "about"`,
`path := "blog/[id]/index"`. -/
theorem pathToPathname_rules_witness :
    (strStartsWith ("id" ++ "]") "..." = false ∧
     strStartsWith "about" "[" = false ∧
     (splitSlash "blog/[id]/index").getLast? = some "index") ∧
    (pathToPathname "blog/[id]/index" = "/blog/:id" ∧
     pathToPathname "[...slug]" = "/:slug*" ∧
     segmentToPattern ("[..." ++ "id" ++ "]") = ":" ++ "id" ++ "*" ∧
     segmentToPattern ("[" ++ "id" ++ "]") = ":" ++ "id" ∧
     segmentToPattern "about" = "about" ∧
     pathToPathname "blog/[id]/index" =
       "/" ++ joinSlash (((splitSlash "blog/[id]/index").dropLast).map segmentToPattern)) :=
  ⟨by refine ⟨by decide, by decide, by decide⟩,
   pathToPathname_rules "id" "about" "blog/[id]/index"
     (by decide) (by decide) (by decide)⟩

/-! ### Chain-executor lemmas -/

theorem runChain_trace_head (l : List (MwAction E R)) (term : Except E R) (i : Nat) :
    ((runChain l term i).snd).head? = some i := by
  cases l with
  | nil => rfl
  | cons a rest => cases a <;> rfl

theorem runChain_trace_chain (l : List (MwAction E R)) (term : Except E R) (i : Nat) :
    List.Chain' (· < ·) (runChain l term i).snd := by
  induction l generalizing i with
  | nil => simp [runChain]
  | cons a rest ih =>
    cases a with
    | respond r => simp [runChain]
    | throwErr e => simp [runChain]
    | callNext k =>
      rw [runChain]
      rw [List.chain'_cons']
      refine ⟨?_, ih (i + 1)⟩
      intro y hy
      rw [runChain_trace_head] at hy
      simp only [Option.mem_def, Option.some_inj] at hy
      omega

theorem runChain_respond_of_passthrough (pre post : List (MwAction E R))
    (term : Except E R) (r : R) (i : Nat)
    (hpass : ∀ a ∈ pre, a = MwAction.callNext id) :
    (runChain (pre ++ MwAction.respond r :: post) term i).fst = .ok r ∧
    ∀ j ∈ (runChain (pre ++ MwAction.respond r :: post) term i).snd,
      j ≤ i + pre.length := by
  induction pre generalizing i with
  | nil =>
    simp [runChain]
  | cons a t ih =>
    have ha : a = MwAction.callNext id := hpass a (by simp)
    have hpass' : ∀ a ∈ t, a = MwAction.callNext id := fun a h => hpass a (by simp [h])
    subst ha
    have ihh := ih (i + 1) hpass'
    constructor
    · rw [List.cons_append, runChain]
      simp only [id_eq]
      exact ihh.1
    · intro j hj
      rw [List.cons_append, runChain] at hj
      simp only [List.mem_cons] at hj
      rcases hj with hj | hj
      · omega
      · have := ihh.2 j hj
        simp only [List.length_cons]
        omega

/-! ### C2 — chain errors are dispatched to the error page -/

/-- C2: whenever the middleware/terminal chain for a request settles with an
error `e`, the composed handler returns exactly the error-page handler's
result on a context carrying `ctx.error = e` (the error is caught at the
top of the chain and re-dispatched); the execution trace is strictly
increasing, so no thunk of the failed chain is ever retried; and the
composed handler always produces a plain response value, so no rejection
escapes to the hosting layer. -/
theorem chain_error_to_error_page {U E R : Type}
    (middlewares : List (MiddlewareRoute U E R)) (errorPage : ErrHandlerCtx E → R)
    (url : U) (inner : Except E R) (e : E)
    (h : (runChain (flattenHandlers (selectMiddlewares url middlewares)) inner 0).fst
      = .error e) :
    composeMiddlewares middlewares errorPage url inner = errorPage ⟨e⟩ ∧
    List.Chain' (· < ·)
      ((runChain (flattenHandlers (selectMiddlewares url middlewares)) inner 0).snd) := by
  constructor
  · simp only [composeMiddlewares, h]
    rfl
  · exact runChain_trace_chain _ _ _

/-- Witness for C2: a single matching middleware throws `42`; the composed
result is the error page's response on `ctx.error = 42`. -/
theorem chain_error_to_error_page_witness :
    ((runChain (flattenHandlers (selectMiddlewares ()
        ([⟨"/", fun _ => true, MwHandlerField.single (MwAction.throwErr 42)⟩] :
          List (MiddlewareRoute Unit Nat Nat)))) (Except.ok 0) 0).fst
      = Except.error 42) ∧
    composeMiddlewares
      ([⟨"/", fun _ => true, MwHandlerField.single (MwAction.throwErr 42)⟩] :
        List (MiddlewareRoute Unit Nat Nat))
      (fun c => c.error + 100) () (Except.ok 0) = 142 := by
  have h0 : (runChain (flattenHandlers (selectMiddlewares ()
      ([⟨"/", fun _ => true, MwHandlerField.single (MwAction.throwErr 42)⟩] :
        List (MiddlewareRoute Unit Nat Nat)))) (Except.ok 0) 0).fst
      = Except.error 42 := rfl
  refine ⟨h0, ?_⟩
  have h := (chain_error_to_error_page _ (fun c => c.error + 100) () (Except.ok 0) 42 h0).1
  rw [h]

/-! ### C3 — middlewares that skip next() short-circuit the chain -/

/-- C3 counterexample: middleware 2 returns response `1` without calling
`next()` — the terminal handler (thunk index 2) indeed never runs, the
trace is `[0, 1]` — but the outer middleware 1 calls `next()` and replaces
the settled result with response `5`, so the response delivered for the
request is `5`, not middleware 2's response `1`. -/
theorem mw_short_circuit_counterexample :
    composeMiddlewares
      ([⟨"/", fun _ => true, MwHandlerField.single (MwAction.callNext (fun _ => Except.ok 5))⟩,
        ⟨"/", fun _ => true, MwHandlerField.single (MwAction.respond 1)⟩] :
        List (MiddlewareRoute Unit Nat Nat))
      (fun c => c.error) () (Except.ok 7) = 5 ∧
    (runChain (flattenHandlers (selectMiddlewares ()
      ([⟨"/", fun _ => true, MwHandlerField.single (MwAction.callNext (fun _ => Except.ok 5))⟩,
        ⟨"/", fun _ => true, MwHandlerField.single (MwAction.respond 1)⟩] :
        List (MiddlewareRoute Unit Nat Nat)))) (Except.ok 7) 0).snd = [0, 1] ∧
    (5 : Nat) ≠ 1 := by
  refine ⟨rfl, rfl, by decide⟩

/-- C3 (amended): when a matched middleware (thunk index `pre.length`)
returns a response `r` without calling `next()`, no later thunk of the
chain executes — in particular the terminal route handler never runs — and
the response delivered for the request is exactly `r` provided every
earlier middleware simply delegates, returning `next()`'s result unchanged.
(An earlier middleware that post-processes `next()`'s result delivers its
own transformation instead, see the counterexample.) -/
theorem mw_short_circuit {U E R : Type} (table : List (MiddlewareRoute U E R))
    (errorPage : ErrHandlerCtx E → R) (url : U) (term : Except E R)
    (pre post : List (MwAction E R)) (r : R)
    (ht : flattenHandlers (selectMiddlewares url table)
      = pre ++ MwAction.respond r :: post)
    (hpass : ∀ a ∈ pre, a = MwAction.callNext id) :
    composeMiddlewares table errorPage url term = r ∧
    ∀ j ∈ (runChain (pre ++ MwAction.respond r :: post) term 0).snd,
      j ≤ pre.length := by
  have h := runChain_respond_of_passthrough pre post term r 0 hpass
  constructor
  · simp only [composeMiddlewares, ht, h.1]
  · intro j hj
    have := h.2 j hj
    omega

/-- Witness for C3 (amended): a delegating middleware followed by one that
responds `3` without calling `next()`; the delivered response is `3` and
only thunks 0 and 1 execute. -/
theorem mw_short_circuit_witness :
    (flattenHandlers (selectMiddlewares ()
        ([⟨"/", fun _ => true, MwHandlerField.single (MwAction.callNext id)⟩,
          ⟨"/", fun _ => true, MwHandlerField.single (MwAction.respond 3)⟩] :
          List (MiddlewareRoute Unit Nat Nat)))
      = [MwAction.callNext id] ++ MwAction.respond 3 :: []) ∧
    (composeMiddlewares
      ([⟨"/", fun _ => true, MwHandlerField.single (MwAction.callNext id)⟩,
        ⟨"/", fun _ => true, MwHandlerField.single (MwAction.respond 3)⟩] :
        List (MiddlewareRoute Unit Nat Nat))
      (fun c => c.error) () (Except.ok 7) = 3 ∧
     ∀ j ∈ (runChain ([MwAction.callNext id] ++ MwAction.respond 3 :: [])
        (Except.ok 7 : Except Nat Nat) 0).snd, j ≤ 1) := by
  refine ⟨rfl, ?_⟩
  have h := mw_short_circuit
    ([⟨"/", fun _ => true, MwHandlerField.single (MwAction.callNext id)⟩,
      ⟨"/", fun _ => true, MwHandlerField.single (MwAction.respond 3)⟩] :
      List (MiddlewareRoute Unit Nat Nat))
    (fun c => c.error) () (Except.ok 7) [MwAction.callNext id] [] 3 rfl
    (by intro a ha; simpa using ha)
  exact ⟨h.1, fun j hj => h.2 j hj⟩

/-! ### C6 — middleware selection -/

/-- C6: `selectMiddlewares` returns exactly the subset of table entries
whose compiled pattern matches the request URL, as `{ handler }` records in
table order; and when the selection is empty, dispatch proceeds straight to
the terminal handler — the composed result is the terminal handler's
response. -/
theorem selectMiddlewares_props {U E R : Type} (url : U)
    (table : List (MiddlewareRoute U E R)) (errorPage : ErrHandlerCtx E → R) (r : R) :
    selectMiddlewares url table
      = (table.filter (fun m => m.compiledPattern url)).map (fun m => ⟨m.handler⟩) ∧
    (selectMiddlewares url table = [] →
      composeMiddlewares table errorPage url (Except.ok r) = r) := by
  constructor
  · induction table with
    | nil => rfl
    | cons m rest ih =>
      cases hm : m.compiledPattern url <;>
        simp [selectMiddlewares, List.filter_cons, hm, ih]
  · intro hsel
    simp only [composeMiddlewares, hsel]
    rfl

/-- Witness for C6: a two-entry table at a matching URL yields exactly the
matching entries in order, and a URL matching no entry dispatches straight
to the terminal handler. -/
theorem selectMiddlewares_props_witness :
    (selectMiddlewares 1
        ([⟨"/", fun u => u == 1, MwHandlerField.single (MwAction.respond 0)⟩,
          ⟨"/x", fun _ => false, MwHandlerField.single (MwAction.respond 9)⟩] :
          List (MiddlewareRoute Nat Nat Nat))
      = (([⟨"/", fun u => u == 1, MwHandlerField.single (MwAction.respond 0)⟩,
           ⟨"/x", fun _ => false, MwHandlerField.single (MwAction.respond 9)⟩] :
           List (MiddlewareRoute Nat Nat Nat)).filter
            (fun m => m.compiledPattern 1)).map (fun m => ⟨m.handler⟩)) ∧
    composeMiddlewares
      ([⟨"/", fun u => u == 1, MwHandlerField.single (MwAction.respond 0)⟩,
        ⟨"/x", fun _ => false, MwHandlerField.single (MwAction.respond 9)⟩] :
        List (MiddlewareRoute Nat Nat Nat))
      (fun c => c.error) 5 (Except.ok 7) = 7 :=
  ⟨(selectMiddlewares_props 1 _ (fun c => c.error) 0).1,
   (selectMiddlewares_props 5 _ (fun c => c.error) 7).2 rfl⟩

/-! ### C8 — HEAD synthesis from GET -/

/-- C8: for every route whose module declares a `GET` handler but no `HEAD`
handler, table-building synthesizes a `HEAD` handler that invokes `GET`,
cancels the `GET` response's body stream, and responds with the identical
headers, status and status text but an empty body. -/
theorem head_synthesized {Req β : Type} (defaultGet : Req → Response β)
    (entry : ManifestRouteEntry Req β) (m : MethodHandlers Req β) (g : Req → Response β)
    (hmod : entry.module.handler = some (.byMethod m))
    (hg : m.GET = some g) (hh : m.HEAD = none) :
    (buildRoute defaultGet entry).handler
      = .byMethod ⟨some g, some (synthHeadHandler g)⟩ ∧
    ∀ req, (synthHeadHandler g req).body = none ∧
      (synthHeadHandler g req).headers = (g req).headers ∧
      (synthHeadHandler g req).status = (g req).status ∧
      (synthHeadHandler g req).statusText = (g req).statusText ∧
      synthHeadCancels g req = (g req).body := by
  constructor
  · simp [buildRoute, buildHandler, hmod, hg, hh]
  · intro req
    exact ⟨rfl, rfl, rfl, rfl, rfl⟩

/-- Witness for C8 at a one-route manifest whose module has only `GET`. -/
theorem head_synthesized_witness :
    ((⟨"/", "home", ⟨false,
        some (.byMethod ⟨some (fun _ => ⟨some "hello", [("content-type", "text/html")], 200, "OK"⟩), none⟩),
        none⟩⟩ : ManifestRouteEntry Unit String).module.handler
      = some (.byMethod ⟨some (fun _ => ⟨some "hello", [("content-type", "text/html")], 200, "OK"⟩), none⟩)) ∧
    (buildRoute (fun _ => ⟨none, [], 200, ""⟩)
        (⟨"/", "home", ⟨false,
          some (.byMethod ⟨some (fun _ => ⟨some "hello", [("content-type", "text/html")], 200, "OK"⟩), none⟩),
          none⟩⟩ : ManifestRouteEntry Unit String)).handler
      = .byMethod ⟨some (fun _ => ⟨some "hello", [("content-type", "text/html")], 200, "OK"⟩),
          some (synthHeadHandler (fun _ => ⟨some "hello", [("content-type", "text/html")], 200, "OK"⟩))⟩ ∧
    (synthHeadHandler (fun _ : Unit => (⟨some "hello", [("content-type", "text/html")], 200, "OK"⟩ : Response String)) ()).body = none ∧
    (synthHeadHandler (fun _ : Unit => (⟨some "hello", [("content-type", "text/html")], 200, "OK"⟩ : Response String)) ()).headers = [("content-type", "text/html")] ∧
    (synthHeadHandler (fun _ : Unit => (⟨some "hello", [("content-type", "text/html")], 200, "OK"⟩ : Response String)) ()).status = 200 ∧
    synthHeadCancels (fun _ : Unit => (⟨some "hello", [("content-type", "text/html")], 200, "OK"⟩ : Response String)) () = some "hello" := by
  have h := head_synthesized (fun _ => ⟨none, [], 200, ""⟩)
    (⟨"/", "home", ⟨false,
      some (.byMethod ⟨some (fun _ => ⟨some "hello", [("content-type", "text/html")], 200, "OK"⟩), none⟩),
      none⟩⟩ : ManifestRouteEntry Unit String)
    ⟨some (fun _ => ⟨some "hello", [("content-type", "text/html")], 200, "OK"⟩), none⟩
    (fun _ => ⟨some "hello", [("content-type", "text/html")], 200, "OK"⟩)
    rfl rfl rfl
  exact ⟨rfl, h.1, (h.2 ()).1, (h.2 ()).2.1, (h.2 ()).2.2.1, (h.2 ()).2.2.2.2⟩

/-! ### C10 — routeOverride applies only when truthy -/

/-- C10: at route-table construction the declared `routeOverride` replaces
the manifest-derived pathname only when it is truthy: an empty-string
override, an absent override, and an absent config all leave the
manifest-derived pathname in place, while a non-empty override wins. -/
theorem routeOverride_truthiness {Req β : Type} (defaultGet : Req → Response β)
    (e1 e2 e3 e4 : ManifestRouteEntry Req β) (cfg1 cfg3 cfg4 : RouteConfig) (s : String)
    (h1 : e1.module.config = some cfg1) (h1b : cfg1.routeOverride = some "")
    (h2 : e2.module.config = none)
    (h3 : e3.module.config = some cfg3) (h3b : cfg3.routeOverride = none)
    (h4 : e4.module.config = some cfg4) (h4b : cfg4.routeOverride = some s)
    (hs : s ≠ "") :
    (buildRoute defaultGet e1).pathname = e1.pathname ∧
    (buildRoute defaultGet e2).pathname = e2.pathname ∧
    (buildRoute defaultGet e3).pathname = e3.pathname ∧
    (buildRoute defaultGet e4).pathname = s := by
  refine ⟨?_, ?_, ?_, ?_⟩ <;>
    simp [buildRoute, resolveRoutePathname, h1, h1b, h2, h3, h3b, h4, h4b, hs]

/-- Witness for C10: empty-string, absent and non-empty overrides on
concrete manifest entries. -/
theorem routeOverride_truthiness_witness :
    ((⟨"/a", "a", ⟨false, none, some ⟨some "", none⟩⟩⟩ :
        ManifestRouteEntry Unit Unit).module.config = some ⟨some "", none⟩ ∧
     ("/custom" : String) ≠ "") ∧
    ((buildRoute (fun _ => ⟨none, [], 200, ""⟩)
        (⟨"/a", "a", ⟨false, none, some ⟨some "", none⟩⟩⟩ :
          ManifestRouteEntry Unit Unit)).pathname = "/a" ∧
     (buildRoute (fun _ => ⟨none, [], 200, ""⟩)
        (⟨"/b", "b", ⟨false, none, none⟩⟩ :
          ManifestRouteEntry Unit Unit)).pathname = "/b" ∧
     (buildRoute (fun _ => ⟨none, [], 200, ""⟩)
        (⟨"/c", "c", ⟨false, none, some ⟨none, some true⟩⟩⟩ :
          ManifestRouteEntry Unit Unit)).pathname = "/c" ∧
     (buildRoute (fun _ => ⟨none, [], 200, ""⟩)
        (⟨"/d", "d", ⟨false, none, some ⟨some "/custom", none⟩⟩⟩ :
          ManifestRouteEntry Unit Unit)).pathname = "/custom") :=
  ⟨⟨rfl, by decide⟩,
   routeOverride_truthiness (fun _ => ⟨none, [], 200, ""⟩)
     ⟨"/a", "a", ⟨false, none, some ⟨some "", none⟩⟩⟩
     ⟨"/b", "b", ⟨false, none, none⟩⟩
     ⟨"/c", "c", ⟨false, none, some ⟨none, some true⟩⟩⟩
     ⟨"/d", "d", ⟨false, none, some ⟨some "/custom", none⟩⟩⟩
     ⟨some "", none⟩ ⟨none, some true⟩ ⟨some "/custom", none⟩ "/custom"
     rfl rfl rfl rfl rfl rfl rfl (by decide)⟩

/-! ### Render-pipeline lemmas -/

theorem cspNonce_injective : Function.Injective cspNonce := by
  intro a b h
  have h2 : "'nonce-".toList ++ (a.toList ++ "'".toList)
      = "'nonce-".toList ++ (b.toList ++ "'".toList) := by
    have h3 := congrArg String.toList h
    simpa [cspNonce, List.append_assoc] using h3
  have h4 := List.append_cancel_left h2
  have h5 := List.append_cancel_right h4
  have h6 := congrArg String.mk h5
  simpa using h6

theorem injectScripts_fst (nonces : Nat → String) (l : List String) (i : Nat)
    (csp : Option ContentSecurityPolicy) :
    (injectScripts nonces l i csp).1
      = ((List.range' i l.length).zip l).map (fun p => (p.2, nonces p.1)) := by
  induction l generalizing i csp with
  | nil => simp [injectScripts]
  | cons url rest ih =>
    cases csp with
    | none => simp [injectScripts, List.range', ih]
    | some c => simp [injectScripts, List.range', ih]

theorem injectScripts_none_snd (nonces : Nat → String) (l : List String) (i : Nat) :
    (injectScripts nonces l i none).2 = none := by
  induction l generalizing i with
  | nil => rfl
  | cons url rest ih => simp [injectScripts, ih]

theorem injectScripts_some_snd (nonces : Nat → String) (l : List String) (i : Nat)
    (c : ContentSecurityPolicy) :
    (injectScripts nonces l i (some c)).2 = some
      { c with directives := { c.directives with
          scriptSrc := if l.isEmpty then c.directives.scriptSrc
            else some ((c.directives.scriptSrc.getD [])
              ++ (List.range' i l.length).map (fun j => cspNonce (nonces j))) } } := by
  induction l generalizing i c with
  | nil => simp [injectScripts]
  | cons url rest ih =>
    simp only [injectScripts]
    rw [ih]
    cases rest with
    | nil => simp [List.range']
    | cons u2 r2 => simp [List.range', List.append_assoc]

/-! ### C7 — the render hook must call the inner render function -/

/-- C7: `internalRender` hands the page to the externally supplied render
hook; when the hook never invokes the supplied inner render function
(`hookCalls = 0`, so the `outlet` slot is never written) the render fails
with the "was not called" error instead of returning output, while a hook
that does call it (and whose page render produced a truthy outlet) yields
output. -/
theorem render_hook_not_called (route : RenderPageModel) (imports : List String)
    (nonces : Nat → String) (o : String)
    (ho : route.renderResult = some o) (hno : o ≠ "") :
    internalRender route imports 0 nonces
      = .error "The 'render' function was not called by route's render hook." ∧
    ∃ out, internalRender route imports 1 nonces = .ok out := by
  constructor
  · rfl
  · have hres : internalRender route imports 1 nonces
        = .ok ({ outlet := o,
                 moduleScripts := (injectScripts nonces imports 0
                   ((if route.csp then some defaultCsp else none).map
                     (fun _ => defaultCsp))).1 },
               (injectScripts nonces imports 0
                 ((if route.csp then some defaultCsp else none).map
                   (fun _ => defaultCsp))).2) := by
      simp [internalRender, ho, hno]
    exact ⟨_, hres⟩

/-- Witness for C7: a CSP-less page whose render yields `"x"`. -/
theorem render_hook_not_called_witness :
    ((⟨false, some "x"⟩ : RenderPageModel).renderResult = some "x" ∧ ("x" : String) ≠ "") ∧
    (internalRender ⟨false, some "x"⟩ ["m1"] 0 (fun _ => "n")
      = .error "The 'render' function was not called by route's render hook." ∧
     ∃ out, internalRender ⟨false, some "x"⟩ ["m1"] 1 (fun _ => "n") = .ok out) :=
  ⟨⟨rfl, by decide⟩,
   render_hook_not_called ⟨false, some "x"⟩ ["m1"] (fun _ => "n") "x" rfl (by decide)⟩

/-! ### C9 — CSP production and per-script nonces -/

/-- C9: a successful `internalRender` produces a CSP object exactly when the
page declares `csp: true`; when produced, its directives are the default
set (`default-src 'none'`, `style-src 'unsafe-inline'`) plus, for the `n`
injected client-module URLs, exactly one freshly generated nonce per module
appended to `script-src` — `n` entries, pairwise distinct whenever the
nonce stream is injective — and every module script is paired with its own
nonce. -/
theorem csp_per_script_nonces (route : RenderPageModel) (imports : List String)
    (nonces : Nat → String) (calls : Nat) (o : String)
    (hc : calls ≠ 0) (ho : route.renderResult = some o) (hno : o ≠ "")
    (hinj : Function.Injective nonces) :
    ∃ outp csp,
      internalRender route imports calls nonces = .ok (outp, csp) ∧
      (csp.isSome ↔ route.csp = true) ∧
      outp.moduleScripts
        = ((List.range' 0 imports.length).zip imports).map (fun p => (p.2, nonces p.1)) ∧
      (route.csp = true →
        csp = some
          { directives :=
              { defaultSrc := some [NONE]
                styleSrc := some [UNSAFE_INLINE]
                scriptSrc := if imports.isEmpty then none
                  else some ((List.range' 0 imports.length).map
                    (fun j => cspNonce (nonces j)))
                connectSrc := none }
            reportOnly := false }) ∧
      ((List.range' 0 imports.length).map (fun j => cspNonce (nonces j))).length
        = imports.length ∧
      ((List.range' 0 imports.length).map (fun j => cspNonce (nonces j))).Nodup := by
  have hnodup : ((List.range' 0 imports.length).map (fun j => cspNonce (nonces j))).Nodup := by
    have h1 : Function.Injective (fun j => cspNonce (nonces j)) :=
      fun a b h => hinj (cspNonce_injective h)
    refine List.Nodup.map h1 ?_
    have := List.nodup_range imports.length
    simpa [List.range_eq_range'] using this
  cases hcsp : route.csp with
  | false =>
    have hres : internalRender route imports calls nonces
        = .ok ({ outlet := o, moduleScripts := (injectScripts nonces imports 0 none).1 },
               (injectScripts nonces imports 0 none).2) := by
      simp only [internalRender, hcsp, ho, if_neg hc, if_neg hno]
      rfl
    refine ⟨_, _, hres, ?_, ?_, ?_, by simp, hnodup⟩
    · simp [injectScripts_none_snd, hcsp]
    · simp [injectScripts_fst]
    · intro h
      exact absurd h (by simp)
  | true =>
    have hres : internalRender route imports calls nonces
        = .ok ({ outlet := o,
                 moduleScripts := (injectScripts nonces imports 0 (some defaultCsp)).1 },
               (injectScripts nonces imports 0 (some defaultCsp)).2) := by
      simp only [internalRender, hcsp, ho, if_neg hc, if_neg hno]
      rfl
    refine ⟨_, _, hres, ?_, ?_, ?_, by simp, hnodup⟩
    · simp [injectScripts_some_snd, hcsp]
    · simp [injectScripts_fst]
    · intro _
      rw [injectScripts_some_snd]
      cases imports with
      | nil => simp [defaultCsp]
      | cons u rest => simp [defaultCsp]

/-- Witness for C9: a `csp: true` page with two injected module URLs gets
two distinct nonce entries in `script-src`. -/
theorem csp_per_script_nonces_witness :
    ((1 : Nat) ≠ 0 ∧ (⟨true, some "x"⟩ : RenderPageModel).renderResult = some "x" ∧
     ("x" : String) ≠ "" ∧
     Function.Injective (fun i => String.mk (List.replicate i 'a'))) ∧
    (∃ outp csp,
      internalRender ⟨true, some "x"⟩ ["m1", "m2"] 1
          (fun i => String.mk (List.replicate i 'a')) = .ok (outp, csp) ∧
      (csp.isSome ↔ (⟨true, some "x"⟩ : RenderPageModel).csp = true) ∧
      outp.moduleScripts
        = ((List.range' 0 (["m1", "m2"] : List String).length).zip ["m1", "m2"]).map
            (fun p => (p.2, (fun i => String.mk (List.replicate i 'a')) p.1)) ∧
      ((⟨true, some "x"⟩ : RenderPageModel).csp = true →
        csp = some
          { directives :=
              { defaultSrc := some [NONE]
                styleSrc := some [UNSAFE_INLINE]
                scriptSrc := if (["m1", "m2"] : List String).isEmpty then none
                  else some ((List.range' 0 (["m1", "m2"] : List String).length).map
                    (fun j => cspNonce ((fun i => String.mk (List.replicate i 'a')) j)))
                connectSrc := none }
            reportOnly := false }) ∧
      ((List.range' 0 (["m1", "m2"] : List String).length).map
        (fun j => cspNonce ((fun i => String.mk (List.replicate i 'a')) j))).length
        = (["m1", "m2"] : List String).length ∧
      ((List.range' 0 (["m1", "m2"] : List String).length).map
        (fun j => cspNonce ((fun i => String.mk (List.replicate i 'a')) j))).Nodup) := by
  have hinj : Function.Injective (fun i => String.mk (List.replicate i 'a')) := by
    intro a b h
    have h2 : List.replicate a 'a' = List.replicate b 'a' := congrArg String.toList h
    have h3 := congrArg List.length h2
    simpa using h3
  exact ⟨⟨by decide, rfl, by decide, hinj⟩,
    csp_per_script_nonces ⟨true, some "x"⟩ ["m1", "m2"] (fun i => String.mk (List.replicate i 'a'))
      1 "x" (by decide) rfl (by decide) hinj⟩

end WebServer
